import Mathlib

/-!
Verification development for the Maps LLM gateway (`server.js`, `index.js`).

JavaScript values are shallowly embedded in Lean:
* `Date.now()` timestamps are natural numbers of milliseconds;
* JS numbers appearing in place records (latitude, longitude, rating,
  price level) are rationals (`ℚ`), modelling exact arithmetic;
* possibly-absent JS values (`undefined` fields) are `Option`s;
* JS falsiness on strings (`!s` holds exactly for the empty string) and on
  numbers (`0` is falsy) is modelled explicitly where the source uses `||`.
-/

namespace MapsGateway

/-! ## Rate limiter (`customRateLimiter`, server.js lines 29–53)

The store for one client is its list of request timestamps.  A check filters
the list to the trailing window, rejects with 429 when the filtered list has
reached the maximum, and otherwise appends `now` and writes the list back.
On rejection the store is *not* written back (the source returns before
`rateLimitStore.set`). -/

/-- `windowMs = 60 * 60 * 1000` (one hour), server.js line 32. -/
def windowMs : Nat := 60 * 60 * 1000

/-- `maxRequests = 100`, server.js line 33. -/
def maxRequests : Nat := 100

/-- Outcome of one rate-limiter check for a single client. -/
structure RLOutcome where
  allow : Bool
  status : Option Nat
  errorMsg : Option String
  store : List Nat
  deriving Repr, DecidableEq

/-- One run of `customRateLimiter` for a fixed client whose stored ledger is
`store`, at time `now`.  Mirrors server.js lines 29–53: filter to
`now - time < windowMs`, reject with 429 when `maxRequests` many remain,
else append `now` and store.  (JS `now - time` on a timestamp larger than
`now` is negative hence `< windowMs`; `Nat` subtraction clamps to `0` which
is also `< windowMs`, so the embedding agrees.) -/
def rlCheck (store : List Nat) (now : Nat) : RLOutcome :=
  let validRequests := store.filter (fun time => now - time < windowMs)
  if maxRequests ≤ validRequests.length then
    { allow := false, status := some 429,
      errorMsg := some "Rate limit exceeded", store := store }
  else
    { allow := true, status := none, errorMsg := none,
      store := validRequests ++ [now] }

/-- Run a sequence of checks for one client, collecting the `allow` flags and
the final stored ledger. -/
def rlRun (store : List Nat) : List Nat → List Bool × List Nat
  | [] => ([], store)
  | t :: ts =>
    let r := rlCheck store t
    let rest := rlRun r.store ts
    (r.allow :: rest.1, rest.2)

/-! ## Result normalizer and `/search-places` handler (server.js lines 242–316)

Raw upstream place records have possibly-absent fields (`Option`); `||`
defaulting in the source is falsiness-sensitive (empty string and `0` count
as missing), which the embedding reproduces. -/

/-- A latitude/longitude pair (JS numbers as exact rationals). -/
structure Coord where
  lat : ℚ
  lng : ℚ
  deriving Repr, DecidableEq

/-- A raw place record from the upstream `results` array.  Each field the
handler reads may be absent (`undefined`).  `geometry_location` stands for
`place.geometry?.location`. -/
structure RawPlace where
  name : Option String
  vicinity : Option String
  formatted_address : Option String
  rating : Option ℚ
  price_level : Option ℚ
  place_id : Option String
  geometry_location : Option Coord
  types : Option (List String)
  deriving Repr, DecidableEq

/-- A processed place as built by the handler (server.js lines 270–278). -/
structure PlaceRecord where
  name : String
  address : String
  rating : Option ℚ
  price_level : Option ℚ
  place_id : String
  location : Coord
  types : List String
  deriving Repr, DecidableEq

/-- JS `a || b` for an optional string `a` and default `b`: the empty string
is falsy, so it falls through to `b`. -/
def jsOrStr (a : Option String) (b : String) : String :=
  match a with
  | some s => if s.isEmpty then b else s
  | none => b

/-- JS `a || null` for an optional number `a`: `0` is falsy, so it becomes
`null` (`none`). -/
def jsOrNumNull (a : Option ℚ) : Option ℚ :=
  match a with
  | some v => if v = 0 then none else some v
  | none => none

/-- One entry of `processedPlaces` (server.js lines 270–278):
`name || ""`, `vicinity || formatted_address || ""`, `rating || null`,
`price_level || null`, `place_id || ""`, `geometry?.location || {lat:0,lng:0}`,
`types || []`. -/
def normalizePlace (place : RawPlace) : PlaceRecord :=
  { name := jsOrStr place.name ""
    address := jsOrStr place.vicinity (jsOrStr place.formatted_address "")
    rating := jsOrNumNull place.rating
    price_level := jsOrNumNull place.price_level
    place_id := jsOrStr place.place_id ""
    location := place.geometry_location.getD ⟨0, 0⟩
    types := place.types.getD [] }

/-- `places.slice(0, 10).map(...)` (server.js line 270). -/
def processedPlaces (places : List RawPlace) : List PlaceRecord :=
  (places.take 10).map normalizePlace

/-- `reduce((sum, place) => sum + place.location.lat, 0)`
(server.js lines 281–284). -/
def totalLat (ps : List PlaceRecord) : ℚ :=
  ps.foldl (fun sum place => sum + place.location.lat) 0

/-- `reduce((sum, place) => sum + place.location.lng, 0)`
(server.js lines 285–288). -/
def totalLng (ps : List PlaceRecord) : ℚ :=
  ps.foldl (fun sum place => sum + place.location.lng) 0

/-- The possible results of the `/search-places` handler body, abstracting
the JSON responses it can produce (400, 404, and the 200 payload fields the
claims mention). -/
inductive SearchResponse where
  | badRequest (error : String)
  | notFound (error : String) (message : String)
  | ok (places : List PlaceRecord) (center_lat center_lng : ℚ) (total_results : Nat)
  deriving Repr, DecidableEq

/-- HTTP status of a `SearchResponse`. -/
def SearchResponse.status : SearchResponse → Nat
  | .badRequest _ => 400
  | .notFound _ _ => 404
  | .ok _ _ _ _ => 200

/-- JS truthiness of a possibly-absent string. -/
def jsTruthyStr (s : Option String) : Bool :=
  match s with
  | some v => !v.isEmpty
  | none => false

/-- The 404 message of server.js lines 261–263:
`No results for "<query>"` plus ` in <location>` when `location` is truthy. -/
def noResultsMessage (query : String) (location : Option String) : String :=
  "No results for \"" ++ query ++ "\"" ++
    (if jsTruthyStr location then " in " ++ location.getD "" else "")

/-- The `/search-places` handler body (server.js lines 242–305), given the
parsed body fields `query` and `location` and the list `places` that
`searchPlaces` returned from upstream.  Missing `query` → 400; empty
`places` → 404; otherwise normalize the top 10, average their coordinates
and answer 200. -/
def searchPlacesHandler (query : Option String) (location : Option String)
    (places : List RawPlace) : SearchResponse :=
  if !jsTruthyStr query then .badRequest "Query parameter is required"
  else if places.length = 0 then
    .notFound "No places found" (noResultsMessage (query.getD "") location)
  else
    let processed := processedPlaces places
    .ok processed (totalLat processed / processed.length)
      (totalLng processed / processed.length) places.length

/-- Accessor: the `center_lat` field of a 200 response, if any. -/
def SearchResponse.centerLat? : SearchResponse → Option ℚ
  | .ok _ clat _ _ => some clat
  | _ => none

/-- Accessor: the `center_lng` field of a 200 response, if any. -/
def SearchResponse.centerLng? : SearchResponse → Option ℚ
  | .ok _ _ clng _ => some clng
  | _ => none

/-- Written from the spec's words, to compare with the handler: the
arithmetic-mean latitude `sum(lat)/n` over the **full** returned record set
(every upstream record, normalized), not merely the top 10. -/
def specFullSetCenterLat (places : List RawPlace) : ℚ :=
  ((places.map normalizePlace).map (fun p => p.location.lat)).sum / places.length

/-- Written from the spec's words: the arithmetic-mean longitude
`sum(lng)/n` over the full returned record set. -/
def specFullSetCenterLng (places : List RawPlace) : ℚ :=
  ((places.map normalizePlace).map (fun p => p.location.lng)).sum / places.length

/-- A raw place record carrying only coordinates. -/
def placeAt (lat lng : ℚ) : RawPlace :=
  { name := none, vicinity := none, formatted_address := none,
    rating := none, price_level := none, place_id := none,
    geometry_location := some ⟨lat, lng⟩, types := none }

/-- Concrete upstream response used to separate the top-10 mean from the
full-set mean: ten records at latitude 0 and an eleventh at latitude 22. -/
def elevenPlaces : List RawPlace :=
  [placeAt 0 0, placeAt 0 0, placeAt 0 0, placeAt 0 0, placeAt 0 0,
   placeAt 0 0, placeAt 0 0, placeAt 0 0, placeAt 0 0, placeAt 0 0,
   placeAt 22 33]

/-! ## Geocoder (`geocode`, index.js lines 24–39)

`geocode` returns its argument unchanged — without any network call — when
the argument is falsy (the empty string) or matches the anchored regex
`^-?\d+\.?\d*,-?\d+\.?\d*$`; otherwise it fetches the geocode endpoint for
the address.  The regex is embedded as a deterministic parser: the character
classes digit, `.`, `,` are disjoint, so greedy matching is unambiguous. -/

/-- Parse `-?\d+\.?\d*` at the front of a character list, returning the rest
on success. -/
def parseCoordNum (cs : List Char) : Option (List Char) :=
  let cs1 := match cs with
    | '-' :: rest => rest
    | _ => cs
  let (digits, r1) := cs1.span Char.isDigit
  if digits.isEmpty then none
  else
    let r2 := match r1 with
      | '.' :: rest => rest
      | _ => r1
    (r2.span Char.isDigit).2

/-- Full-string match of `^-?\d+\.?\d*,-?\d+\.?\d*$`. -/
def coordPattern (s : String) : Bool :=
  match parseCoordNum s.data with
  | none => false
  | some rest =>
    match rest with
    | ',' :: r2 =>
      match parseCoordNum r2 with
      | some [] => true
      | _ => false
    | _ => false

/-- What `geocode` does before any `await`: either return a string
unchanged with no network call, or fetch the geocode endpoint for the given
address. -/
inductive GeoAction where
  | ret (s : String)
  | fetchGeocode (address : String)
  deriving Repr, DecidableEq

/-- The branch decision of `geocode(location)` (index.js line 25):
`if (!location || pattern.test(location)) return location`, else fetch. -/
def geocodeDecision (location : String) : GeoAction :=
  if location.isEmpty || coordPattern location then .ret location
  else .fetchGeocode location

/-! ## Bearer auth and protected-route pipeline (server.js lines 79–82)

For `/search-places` and `/directions`, `bearerAuth` is registered before
`customRateLimiter`, which runs before the handler body.  `bearerAuth`
compares the `Authorization` header against `Bearer <secret>` and answers
401 on absence or mismatch, before the rate limiter runs. -/

/-- Does the request's `Authorization` header carry the expected bearer
token? -/
def bearerAuthOk (secret : String) (authHeader : Option String) : Bool :=
  match authHeader with
  | some h => h == "Bearer " ++ secret
  | none => false

/-- Client identifier used by the rate limiter (server.js line 30):
the `x-forwarded-for` header, defaulting to `"unknown"` when absent or
empty (falsy). -/
def clientId (xForwardedFor : Option String) : String :=
  match xForwardedFor with
  | some s => if s.isEmpty then "unknown" else s
  | none => "unknown"

/-- An inbound request to a protected route, as far as the middleware chain
reads it: auth header, forwarded address, and an uninterpreted body. -/
structure GatewayRequest (β : Type) where
  authHeader : Option String
  xForwardedFor : Option String
  body : β

/-- Result of running a protected route: the HTTP status produced and the
rate-limit store after the request (keyed by client identifier). -/
structure RouteResult where
  status : Nat
  store : String → List Nat

/-- The middleware pipeline of a protected route (server.js lines 79–82):
`bearerAuth` first (mismatch or absence → 401, nothing else runs), then
`customRateLimiter` (429 when over the limit, otherwise it records the
request), then the handler body, whose status is given by `handler`. -/
def protectedRoute {β : Type} (secret : String) (store : String → List Nat)
    (req : GatewayRequest β) (now : Nat) (handler : β → Nat) : RouteResult :=
  if !bearerAuthOk secret req.authHeader then
    { status := 401, store := store }
  else
    let cid := clientId req.xForwardedFor
    let r := rlCheck (store cid) now
    if r.allow then
      { status := handler req.body,
        store := fun k => if k = cid then r.store else store k }
    else
      { status := 429, store := store }

/-! ## Function-call adapter (`/llm-function`, server.js lines 370–402) -/

/-- Request headers as a list of name/value pairs (`c.req.header()`). -/
def Headers : Type := List (String × String)

/-- The JSON `parameters` object, abstracted as name/value pairs. -/
def Params : Type := List (String × String)

/-- What the `/llm-function` handler does with a parsed body: re-invoke an
internal endpoint with some headers and body, or answer 400. -/
inductive LLMResult where
  | dispatch (endpoint : String) (headers : Headers) (body : Params)
  | badRequest (status : Nat) (error : String)

/-- The `/llm-function` handler body (server.js lines 370–391): dispatch
`search_places` to `/search-places` and `get_directions` to `/directions`,
forwarding the original request's headers (`c.req.header()`) and
`parameters` (defaulted to `{}`) as the body; any other name → 400
`"Unknown function name"`. -/
def llmFunctionHandler (functionName : Option String) (parameters : Option Params)
    (reqHeaders : Headers) : LLMResult :=
  let ps := parameters.getD []
  if functionName = some "search_places" then
    .dispatch "/search-places" reqHeaders ps
  else if functionName = some "get_directions" then
    .dispatch "/directions" reqHeaders ps
  else
    .badRequest 400 "Unknown function name"

/-! ## Startup configuration checks (server.js lines 9–23) -/

/-- JS truthiness of an environment variable: absent (`undefined`) and the
empty string are falsy. -/
def envTruthy (v : Option String) : Bool :=
  match v with
  | some s => !s.isEmpty
  | none => false

/-- Outcome of the top-level startup checks: `process.exit(1)` or a running
server configured with both secrets. -/
inductive StartupOutcome where
  | exitWith (code : Nat)
  | started (googleMapsApiKey : String) (apiSecret : String)
  deriving Repr, DecidableEq

/-- server.js lines 15–23: exit with code 1 when `GOOGLE_MAPS_API_KEY` is
falsy, then when `API_SECRET` is falsy; otherwise the server starts. -/
def startupCheck (googleMapsApiKey apiSecret : Option String) : StartupOutcome :=
  if !envTruthy googleMapsApiKey then .exitWith 1
  else if !envTruthy apiSecret then .exitWith 1
  else .started (googleMapsApiKey.getD "") (apiSecret.getD "")

/-! ## Theorems: rate limiter (C1, C8) -/

lemma rlCheck_allow_of_lt (store : List Nat) (now : Nat)
    (h : (store.filter (fun time => now - time < windowMs)).length < maxRequests) :
    rlCheck store now =
      { allow := true, status := none, errorMsg := none,
        store := store.filter (fun time => now - time < windowMs) ++ [now] } := by
  simp [rlCheck, Nat.not_le.mpr h]

lemma rlCheck_deny_of_ge (store : List Nat) (now : Nat)
    (h : maxRequests ≤ (store.filter (fun time => now - time < windowMs)).length) :
    rlCheck store now =
      { allow := false, status := some 429,
        errorMsg := some "Rate limit exceeded", store := store } := by
  simp [rlCheck, h]

/-- If every stored timestamp and every upcoming check time lies within one
window of every upcoming check time, and the total count stays within the
maximum, then every check is allowed and the ledger ends up being the
concatenation. -/
lemma rlRun_all_allowed (ts : List Nat) :
    ∀ s : List Nat,
      s.length + ts.length ≤ maxRequests →
      (∀ x ∈ s ++ ts, ∀ u ∈ ts, u - x < windowMs) →
      rlRun s ts = (List.replicate ts.length true, s ++ ts) := by
  induction ts with
  | nil => intro s _ _; simp [rlRun]
  | cons t ts ih =>
    intro s hlen hwin
    have hfilter : s.filter (fun time => t - time < windowMs) = s := by
      apply List.filter_eq_self.mpr
      intro x hx
      simpa using hwin x (List.mem_append_left _ hx) t (List.mem_cons_self _ _)
    have hslen : s.length < maxRequests := by
      have := hlen
      simp only [List.length_cons] at this
      omega
    have hcheck := rlCheck_allow_of_lt s t (by rw [hfilter]; exact hslen)
    have hstep : rlCheck s t =
        { allow := true, status := none, errorMsg := none, store := s ++ [t] } := by
      rw [hcheck, hfilter]
    have hrec : rlRun (s ++ [t]) ts = (List.replicate ts.length true, (s ++ [t]) ++ ts) := by
      apply ih
      · simp only [List.length_append, List.length_cons, List.length_nil] at hlen ⊢
        omega
      · intro x hx u hu
        rcases List.mem_append.mp hx with hx' | hx'
        · rcases List.mem_append.mp hx' with hx'' | hx''
          · exact hwin x (List.mem_append_left _ hx'')
              u (List.mem_cons_of_mem _ hu)
          · have : x = t := by simpa using hx''
            subst this
            exact hwin x (List.mem_append_right _ (List.mem_cons_self _ _))
              u (List.mem_cons_of_mem _ hu)
        · exact hwin x (List.mem_append_right _ (List.mem_cons_of_mem _ hx'))
            u (List.mem_cons_of_mem _ hu)
    simp only [rlRun, hstep, hrec]
    simp [List.replicate_succ, List.append_assoc]

/-- C1. For one client: starting from an empty ledger, at most 100 calls whose
times all lie within one sliding window are all allowed, and when exactly 100
calls have been made, the 101st call within the same window is denied with
status 429. -/
theorem rate_limiter_hundred_then_429 (ts : List Nat) (t : Nat)
    (hwin : ∀ x ∈ ts ++ [t], ∀ u ∈ ts ++ [t], u - x < windowMs)
    (hlen : ts.length ≤ 100) :
    (rlRun [] ts).1 = List.replicate ts.length true ∧
      (ts.length = 100 →
        (rlCheck (rlRun [] ts).2 t).allow = false ∧
        (rlCheck (rlRun [] ts).2 t).status = some 429) := by
  have hrun : rlRun [] ts = (List.replicate ts.length true, ts) := by
    have := rlRun_all_allowed ts [] (by simpa [maxRequests] using hlen)
      (fun x hx u hu => hwin x (by simpa using List.mem_append_left [t] (by simpa using hx))
        u (List.mem_append_left [t] hu))
    simpa using this
  refine ⟨by rw [hrun], ?_⟩
  intro h100
  have hfilter : ts.filter (fun time => t - time < windowMs) = ts := by
    apply List.filter_eq_self.mpr
    intro x hx
    simpa using hwin x (List.mem_append_left _ hx) t
      (List.mem_append_right _ (List.mem_singleton.mpr rfl))
  have hstore : (rlRun [] ts).2 = ts := by rw [hrun]
  rw [hstore]
  have hdeny := rlCheck_deny_of_ge ts t (by rw [hfilter, h100]; exact le_refl _)
  rw [hdeny]
  exact ⟨rfl, rfl⟩

/-- Witness for C1 at a concrete input: 100 calls at time 0 are all allowed
and the 101st at time 0 is denied with 429. -/
theorem rate_limiter_hundred_then_429_witness :
    (rlRun [] (List.replicate 100 0)).1 = List.replicate 100 true ∧
      (rlCheck (rlRun [] (List.replicate 100 0)).2 0).allow = false ∧
      (rlCheck (rlRun [] (List.replicate 100 0)).2 0).status = some 429 := by
  have h := rate_limiter_hundred_then_429 (List.replicate 100 0) 0
    (by
      intro x hx u hu
      have hx0 : x = 0 := by
        rcases List.mem_append.mp hx with h' | h'
        · exact List.eq_of_mem_replicate h'
        · simpa using h'
      have hu0 : u = 0 := by
        rcases List.mem_append.mp hu with h' | h'
        · exact List.eq_of_mem_replicate h'
        · simpa using h'
      subst hx0; subst hu0; decide)
    (by simp)
  refine ⟨by simpa using h.1, ?_⟩
  have := h.2 (by simp)
  simpa using this

/-- A single check preserves the ledger invariant: if the stored list had at
most `maxRequests` entries, all of them timestamps no later than `now`, then
after the check the stored list still has at most `maxRequests` entries and
every entry lies within the trailing window of `now`.  The denied branch does
not write the store, but denial forces every stored entry to pass the filter
(the store can never exceed `maxRequests` entries), so the conclusion holds
there too. -/
lemma rlCheck_inv (s : List Nat) (now : Nat)
    (hlen : s.length ≤ maxRequests) (hle : ∀ x ∈ s, x ≤ now) :
    (rlCheck s now).store.length ≤ maxRequests ∧
      ∀ x ∈ (rlCheck s now).store, x ≤ now ∧ now - x < windowMs := by
  by_cases h : maxRequests ≤ (s.filter (fun time => now - time < windowMs)).length
  · rw [rlCheck_deny_of_ge s now h]
    have hflen : (s.filter (fun time => now - time < windowMs)).length ≤ s.length :=
      List.length_filter_le _ _
    have hall : ∀ x ∈ s, now - x < windowMs := by
      have heq : (s.filter (fun time => now - time < windowMs)).length = s.length := by
        omega
      intro x hx
      have := List.filter_length_eq_length.mp heq x hx
      simpa using this
    exact ⟨hlen, fun x hx => ⟨hle x hx, hall x hx⟩⟩
  · rw [rlCheck_allow_of_lt s now (Nat.not_le.mp h)]
    constructor
    · simp only [List.length_append, List.length_cons, List.length_nil]
      omega
    · intro x hx
      rcases List.mem_append.mp hx with hx' | hx'
      · have hkeep := List.of_mem_filter hx'
        exact ⟨hle x (List.mem_of_mem_filter hx'), by simpa using hkeep⟩
      · have : x = now := by simpa using hx'
        subst this
        exact ⟨le_refl _, by simp [windowMs]⟩

/-- Running checks at nondecreasing times preserves the invariant down to the
final check time. -/
lemma rlRun_inv (ts : List Nat) :
    ∀ (s : List Nat) (t : Nat),
      s.length ≤ maxRequests →
      (∀ x ∈ s, ∀ u ∈ ts ++ [t], x ≤ u) →
      List.Pairwise (· ≤ ·) (ts ++ [t]) →
      (rlRun s (ts ++ [t])).2.length ≤ maxRequests ∧
        ∀ x ∈ (rlRun s (ts ++ [t])).2, x ≤ t ∧ t - x < windowMs := by
  induction ts with
  | nil =>
    intro s t hlen hle _
    have h := rlCheck_inv s t hlen (fun x hx => hle x hx t (by simp))
    simpa [rlRun] using h
  | cons u ts ih =>
    intro s t hlen hle hpair
    have hle_u : ∀ x ∈ s, x ≤ u := fun x hx => hle x hx u (by simp)
    have hstep := rlCheck_inv s u hlen hle_u
    have hpair' : List.Pairwise (· ≤ ·) (ts ++ [t]) :=
      (List.pairwise_cons.mp (by simpa using hpair)).2
    have hu_rest : ∀ v ∈ ts ++ [t], u ≤ v :=
      (List.pairwise_cons.mp (by simpa using hpair)).1
    have hrec := ih (rlCheck s u).store t hstep.1
      (fun x hx v hv => le_trans (hstep.2 x hx).1 (hu_rest v hv)) hpair'
    simpa [rlRun] using hrec

/-- C8.  After every rate-limiter check for a client — running from an empty
ledger through any nondecreasing sequence of earlier check times `ts` and a
final check at time `t` — every timestamp stored in the client's ledger lies
within the trailing window `[t - windowMs, t]`; entries older than the
window have been pruned. -/
theorem rate_limiter_ledger_within_window (ts : List Nat) (t : Nat)
    (hpair : List.Pairwise (· ≤ ·) (ts ++ [t])) :
    ∀ x ∈ (rlRun [] (ts ++ [t])).2,
      t - windowMs ≤ x ∧ x ≤ t ∧ t - x < windowMs := by
  intro x hx
  have h := rlRun_inv ts [] t (by simp [maxRequests]) (by simp) hpair
  have hx' := h.2 x hx
  exact ⟨by omega, hx'.1, hx'.2⟩

/-- Witness for C8 at a concrete input: checks at times 0, 1, 2, instantiated
at the stored entry 1. -/
theorem rate_limiter_ledger_within_window_witness :
    List.Pairwise (· ≤ ·) ([0, 1] ++ [2]) ∧
      (2 - windowMs ≤ 1 ∧ 1 ≤ 2 ∧ 2 - 1 < windowMs) :=
  ⟨by decide,
    rate_limiter_ledger_within_window [0, 1] 2 (by decide) 1 (by decide)⟩

/-! ## Theorems: `/search-places` handler and normalizer (C2, C4, C6, C10) -/

/-- C4. With a non-empty query, a search whose upstream response has zero
results is answered by the 404 branch whose message names the query (and the
location when one was supplied); the handler never produces a 200 payload,
so the center-point division over the record count is never reached. -/
theorem search_zero_results_404 (q : String) (loc : Option String) (hq : q ≠ "") :
    searchPlacesHandler (some q) loc [] =
      .notFound "No places found" (noResultsMessage q loc) ∧
    (searchPlacesHandler (some q) loc []).status = 404 ∧
    ∀ ps clat clng n, searchPlacesHandler (some q) loc [] ≠ .ok ps clat clng n := by
  have hne : q.isEmpty = false := by
    cases hempty : q.isEmpty
    · rfl
    · exact absurd ((String.isEmpty_iff q).mp hempty) hq
  have hhandler : searchPlacesHandler (some q) loc [] =
      .notFound "No places found" (noResultsMessage q loc) := by
    simp [searchPlacesHandler, jsTruthyStr, hne]
  refine ⟨hhandler, ?_, ?_⟩
  · rw [hhandler]; rfl
  · intro ps clat clng n
    rw [hhandler]
    intro hcontra
    exact SearchResponse.noConfusion hcontra

/-- Witness for C4 at a concrete input: query `"coffee"`, location
`"Berlin"`. -/
theorem search_zero_results_404_witness :
    ("coffee" ≠ "") ∧
      searchPlacesHandler (some "coffee") (some "Berlin") [] =
        .notFound "No places found" (noResultsMessage "coffee" (some "Berlin")) ∧
      (searchPlacesHandler (some "coffee") (some "Berlin") []).status = 404 :=
  have h := search_zero_results_404 "coffee" (some "Berlin") (by decide)
  ⟨by decide, h.1, h.2.1⟩

/-- C6. The normalizer returns at most the top 10 records, obtained by
mapping the defaulting rules over `places.slice(0, 10)`; a missing address
falls back from `vicinity` to `formatted_address` to the empty string,
missing rating and price level become null, and a missing location becomes
`{lat: 0, lng: 0}`. -/
theorem normalizer_top10_defaults (places : List RawPlace) (p : RawPlace) :
    (processedPlaces places).length ≤ 10 ∧
    processedPlaces places = (places.take 10).map normalizePlace ∧
    (p.vicinity = none → p.formatted_address = none →
      (normalizePlace p).address = "") ∧
    (∀ s, p.vicinity = none → p.formatted_address = some s → s ≠ "" →
      (normalizePlace p).address = s) ∧
    (∀ s, p.vicinity = some s → s ≠ "" → (normalizePlace p).address = s) ∧
    (p.rating = none → (normalizePlace p).rating = none) ∧
    (p.price_level = none → (normalizePlace p).price_level = none) ∧
    (p.geometry_location = none → (normalizePlace p).location = ⟨0, 0⟩) := by
  refine ⟨?_, rfl, ?_, ?_, ?_, ?_, ?_, ?_⟩
  · calc (processedPlaces places).length = (places.take 10).length := by
          simp [processedPlaces]
      _ ≤ 10 := by simp [List.length_take]
  · intro hv hf
    simp [normalizePlace, jsOrStr, hv, hf]
  · intro s hv hf hs
    have hne : s.isEmpty = false := by
      cases hempty : s.isEmpty
      · rfl
      · exact absurd ((String.isEmpty_iff s).mp hempty) hs
    simp [normalizePlace, jsOrStr, hv, hf, hne]
  · intro s hv hs
    have hne : s.isEmpty = false := by
      cases hempty : s.isEmpty
      · rfl
      · exact absurd ((String.isEmpty_iff s).mp hempty) hs
    simp [normalizePlace, jsOrStr, hv, hne]
  · intro hr; simp [normalizePlace, jsOrNumNull, hr]
  · intro hp; simp [normalizePlace, jsOrNumNull, hp]
  · intro hl; simp [normalizePlace, hl]

/-- Witness for C6 at a concrete input: a record with every field missing
except a `formatted_address`. -/
theorem normalizer_top10_defaults_witness :
    (processedPlaces []).length ≤ 10 ∧
      (normalizePlace
        { name := none, vicinity := none, formatted_address := some "5th Ave",
          rating := none, price_level := none, place_id := none,
          geometry_location := none, types := none }).address = "5th Ave" ∧
      (normalizePlace
        { name := none, vicinity := none, formatted_address := some "5th Ave",
          rating := none, price_level := none, place_id := none,
          geometry_location := none, types := none }).rating = none ∧
      (normalizePlace
        { name := none, vicinity := none, formatted_address := some "5th Ave",
          rating := none, price_level := none, place_id := none,
          geometry_location := none, types := none }).location = ⟨0, 0⟩ :=
  have h := normalizer_top10_defaults []
    { name := none, vicinity := none, formatted_address := some "5th Ave",
      rating := none, price_level := none, place_id := none,
      geometry_location := none, types := none }
  ⟨h.1, h.2.2.2.1 "5th Ave" rfl rfl (by decide), h.2.2.2.2.2.1 rfl,
    h.2.2.2.2.2.2.2 rfl⟩

/-- C10. When the upstream rating or price level is present but equal to 0,
the normalized record reports that field as null: the `||` defaulting treats
the falsy value `0` like a missing one. -/
theorem zero_rating_price_become_null (p : RawPlace) :
    (p.rating = some 0 → (normalizePlace p).rating = none) ∧
    (p.price_level = some 0 → (normalizePlace p).price_level = none) := by
  constructor
  · intro hr; simp [normalizePlace, jsOrNumNull, hr]
  · intro hp; simp [normalizePlace, jsOrNumNull, hp]

/-- Witness for C10 at a concrete input: a record with rating 0 and price
level 0. -/
theorem zero_rating_price_become_null_witness :
    (normalizePlace
      { name := none, vicinity := none, formatted_address := none,
        rating := some 0, price_level := some 0, place_id := none,
        geometry_location := none, types := none }).rating = none ∧
    (normalizePlace
      { name := none, vicinity := none, formatted_address := none,
        rating := some 0, price_level := some 0, place_id := none,
        geometry_location := none, types := none }).price_level = none :=
  have h := zero_rating_price_become_null
    { name := none, vicinity := none, formatted_address := none,
      rating := some 0, price_level := some 0, place_id := none,
      geometry_location := none, types := none }
  ⟨h.1 rfl, h.2 rfl⟩

lemma foldl_add_map (f : PlaceRecord → ℚ) :
    ∀ (l : List PlaceRecord) (a : ℚ),
      l.foldl (fun sum place => sum + f place) a = a + (l.map f).sum := by
  intro l
  induction l with
  | nil => intro a; simp
  | cons p l ih =>
    intro a
    simp only [List.foldl_cons, List.map_cons, List.sum_cons, ih]
    ring

lemma totalLat_eq_sum (ps : List PlaceRecord) :
    totalLat ps = (ps.map (fun p => p.location.lat)).sum := by
  simpa using foldl_add_map (fun p => p.location.lat) ps 0

lemma totalLng_eq_sum (ps : List PlaceRecord) :
    totalLng ps = (ps.map (fun p => p.location.lng)).sum := by
  simpa using foldl_add_map (fun p => p.location.lng) ps 0

/-- C2 counterexample.  On an upstream response of eleven records — ten at
latitude 0 and one at latitude 22 — the search succeeds (status 200) and the
handler reports `center_lat = 0`, the mean of the top ten only, while the
arithmetic mean of the full returned record set is 2. -/
theorem search_center_not_full_set_mean :
    (searchPlacesHandler (some "cafe") none elevenPlaces).status = 200 ∧
    (searchPlacesHandler (some "cafe") none elevenPlaces).centerLat? = some 0 ∧
    specFullSetCenterLat elevenPlaces = 2 ∧ (0 : ℚ) ≠ 2 := by
  have hhandler : searchPlacesHandler (some "cafe") none elevenPlaces =
      .ok (processedPlaces elevenPlaces) 0 0 11 := by
    have hq : "cafe".isEmpty = false := by decide
    simp only [searchPlacesHandler, jsTruthyStr, elevenPlaces, hq]
    norm_num [processedPlaces, placeAt, normalizePlace, totalLat, totalLng,
      jsOrStr, jsOrNumNull, List.take, List.map, List.foldl]
  refine ⟨by rw [hhandler]; rfl, by rw [hhandler]; rfl, ?_, by norm_num⟩
  norm_num [specFullSetCenterLat, elevenPlaces, placeAt, normalizePlace,
    jsOrStr, jsOrNumNull, List.map, List.sum_cons]

/-- C2 as amended: for every successful search, `center_lat`/`center_lng`
equal the arithmetic mean (`sum/n`) of the coordinates of the top-10 records
included in the response (`places.slice(0, 10)` normalized), with
`total_results` still counting the full upstream set. -/
theorem search_center_is_top10_mean (q : String) (loc : Option String)
    (places : List RawPlace) (hq : q ≠ "") (hne : places ≠ []) :
    searchPlacesHandler (some q) loc places =
      .ok (processedPlaces places)
        (((processedPlaces places).map (fun p => p.location.lat)).sum /
          (processedPlaces places).length)
        (((processedPlaces places).map (fun p => p.location.lng)).sum /
          (processedPlaces places).length)
        places.length := by
  have hemp : q.isEmpty = false := by
    cases hempty : q.isEmpty
    · rfl
    · exact absurd ((String.isEmpty_iff q).mp hempty) hq
  have hlen : ¬places.length = 0 := fun h => hne (List.length_eq_zero.mp h)
  simp [searchPlacesHandler, jsTruthyStr, hemp, hlen,
    totalLat_eq_sum, totalLng_eq_sum]

/-- Witness for the amended C2 at a concrete input: a single place at
latitude 4, longitude 6. -/
theorem search_center_is_top10_mean_witness :
    ("cafe" ≠ "") ∧ ([placeAt 4 6] ≠ ([] : List RawPlace)) ∧
      searchPlacesHandler (some "cafe") none [placeAt 4 6] =
        .ok (processedPlaces [placeAt 4 6])
          (((processedPlaces [placeAt 4 6]).map (fun p => p.location.lat)).sum /
            (processedPlaces [placeAt 4 6]).length)
          (((processedPlaces [placeAt 4 6]).map (fun p => p.location.lng)).sum /
            (processedPlaces [placeAt 4 6]).length)
          [placeAt 4 6].length :=
  ⟨by decide, List.cons_ne_nil _ _,
    search_center_is_top10_mean "cafe" none [placeAt 4 6] (by decide)
      (List.cons_ne_nil _ _)⟩

/-! ## Theorems: geocoder (C3) -/

/-- C3 counterexample.  The empty string does not match the `lat,lng`
pattern, yet `geocode` returns it unchanged without querying the geocode
endpoint (the `!location` disjunct short-circuits the fetch). -/
theorem geocode_empty_string_not_fetched :
    coordPattern "" = false ∧ geocodeDecision "" = .ret "" := by
  constructor
  · rfl
  · rfl

/-- C3 as amended: a location string matching the `lat,lng` numeric pattern
is returned unchanged with no network call; so is the empty (falsy) string;
every other location string is sent to the geocode endpoint. -/
theorem geocode_pattern_passthrough (s : String) :
    (coordPattern s = true → geocodeDecision s = .ret s) ∧
    (s = "" → geocodeDecision s = .ret s) ∧
    (s ≠ "" → coordPattern s = false → geocodeDecision s = .fetchGeocode s) := by
  refine ⟨?_, ?_, ?_⟩
  · intro hpat
    simp [geocodeDecision, hpat]
  · intro hs
    subst hs
    rfl
  · intro hs hpat
    have hemp : s.isEmpty = false := by
      cases hempty : s.isEmpty
      · rfl
      · exact absurd ((String.isEmpty_iff s).mp hempty) hs
    simp [geocodeDecision, hpat, hemp]

/-- Witness for the amended C3 at concrete inputs: the coordinate string
`"40.7128,-74.0060"` passes through, `"New York"` is fetched. -/
theorem geocode_pattern_passthrough_witness :
    geocodeDecision "40.7128,-74.0060" = .ret "40.7128,-74.0060" ∧
      geocodeDecision "New York" = .fetchGeocode "New York" :=
  ⟨(geocode_pattern_passthrough "40.7128,-74.0060").1 (by decide),
    (geocode_pattern_passthrough "New York").2.2 (by decide) (by decide)⟩

/-! ## Theorems: auth ordering (C5), function-call adapter (C7),
startup checks (C9) -/

/-- C5. On a protected route, a missing or mismatched bearer token yields
exactly 401 regardless of the request body, the handler never runs, and the
rate-limit store is left untouched: auth is checked before the rate limiter,
so an unauthenticated request consumes no quota for any client. -/
theorem protected_route_401_no_quota {β : Type} (secret : String)
    (store : String → List Nat) (req : GatewayRequest β) (now : Nat)
    (handler : β → Nat)
    (hauth : bearerAuthOk secret req.authHeader = false) :
    (protectedRoute secret store req now handler).status = 401 ∧
    ∀ k, (protectedRoute secret store req now handler).store k = store k := by
  constructor
  · simp [protectedRoute, hauth]
  · intro k
    simp [protectedRoute, hauth]

/-- Witness for C5 at a concrete input: no `Authorization` header, arbitrary
body `0`, a store holding one timestamp for client `"1.2.3.4"`. -/
theorem protected_route_401_no_quota_witness :
    bearerAuthOk "secret" none = false ∧
      (protectedRoute "secret" (fun _ => [5])
        { authHeader := none, xForwardedFor := some "1.2.3.4", body := (0 : Nat) }
        7 (fun _ => 200)).status = 401 ∧
      (protectedRoute "secret" (fun _ => [5])
        { authHeader := none, xForwardedFor := some "1.2.3.4", body := (0 : Nat) }
        7 (fun _ => 200)).store "1.2.3.4" = [5] :=
  have h := protected_route_401_no_quota "secret" (fun _ => [5])
    { authHeader := none, xForwardedFor := some "1.2.3.4", body := (0 : Nat) }
    7 (fun _ => 200) rfl
  ⟨rfl, h.1, h.2 "1.2.3.4"⟩

/-- C7. The `/llm-function` adapter dispatches `search_places` to
`/search-places` and `get_directions` to `/directions`, forwarding the
original request's headers unchanged (so the auth header is preserved) and
the `parameters` object as the body; any other function name is answered
400 `"Unknown function name"`. -/
theorem llm_function_dispatch (functionName : Option String)
    (parameters : Option Params) (reqHeaders : Headers) :
    (functionName = some "search_places" →
      llmFunctionHandler functionName parameters reqHeaders =
        .dispatch "/search-places" reqHeaders (parameters.getD [])) ∧
    (functionName = some "get_directions" →
      llmFunctionHandler functionName parameters reqHeaders =
        .dispatch "/directions" reqHeaders (parameters.getD [])) ∧
    (functionName ≠ some "search_places" →
      functionName ≠ some "get_directions" →
      llmFunctionHandler functionName parameters reqHeaders =
        .badRequest 400 "Unknown function name") := by
  refine ⟨?_, ?_, ?_⟩
  · intro h
    simp [llmFunctionHandler, h]
  · intro h
    simp [llmFunctionHandler, h]
  · intro h1 h2
    simp [llmFunctionHandler, h1, h2]

/-- Witness for C7 at concrete inputs: the three function names
`"search_places"`, `"get_directions"` and `"teleport"`, with an
`Authorization` header to forward. -/
theorem llm_function_dispatch_witness :
    llmFunctionHandler (some "search_places") none
        [("Authorization", "Bearer s")] =
      .dispatch "/search-places" [("Authorization", "Bearer s")] [] ∧
    llmFunctionHandler (some "get_directions") none
        [("Authorization", "Bearer s")] =
      .dispatch "/directions" [("Authorization", "Bearer s")] [] ∧
    llmFunctionHandler (some "teleport") none
        [("Authorization", "Bearer s")] =
      .badRequest 400 "Unknown function name" :=
  ⟨(llm_function_dispatch (some "search_places") none
      [("Authorization", "Bearer s")]).1 rfl,
    (llm_function_dispatch (some "get_directions") none
      [("Authorization", "Bearer s")]).2.1 rfl,
    (llm_function_dispatch (some "teleport") none
      [("Authorization", "Bearer s")]).2.2 (by decide) (by decide)⟩

/-- C9. If either required secret — the provider API key or the gateway
bearer token — is absent from the environment, startup exits with the
non-zero code 1 and the server is never started. -/
theorem startup_fail_fast (googleMapsApiKey apiSecret : Option String)
    (h : googleMapsApiKey = none ∨ apiSecret = none) :
    startupCheck googleMapsApiKey apiSecret = .exitWith 1 ∧ (1 : Nat) ≠ 0 ∧
    ∀ k s, startupCheck googleMapsApiKey apiSecret ≠ .started k s := by
  have hexit : startupCheck googleMapsApiKey apiSecret = .exitWith 1 := by
    rcases h with h | h
    · subst h
      rfl
    · subst h
      by_cases hk : envTruthy googleMapsApiKey
      · simp [startupCheck, hk, envTruthy]
      · simp [startupCheck, hk]
  refine ⟨hexit, by decide, ?_⟩
  intro k s
  rw [hexit]
  intro hcontra
  exact StartupOutcome.noConfusion hcontra

/-- Witness for C9 at a concrete input: the bearer-token secret is absent
while the API key is present. -/
theorem startup_fail_fast_witness :
    (some "key" = none ∨ (none : Option String) = none) ∧
      startupCheck (some "key") none = .exitWith 1 :=
  have h := startup_fail_fast (some "key") none (Or.inr rfl)
  ⟨Or.inr rfl, h.1⟩

end MapsGateway
